import Mathlib

/-!
Verification of the Lawful Reflection Continuity Engine (Dave Runner).

A shallow embedding of the two source files `server.py` and
`phil_continuity_harness.py`: the drift governor of the `reflect` route, the
defaulting/validation/merge logic of `memory_save`, the session aggregation of
`memory_scan`, the context synthesis of `memory_context`, the two isolated
branches of `memory_context_scan`, the limit clamping of the query routes, and
the control flow of the harness's `run_once`/`main` loop.  Floating-point
drift values are modelled as rationals (all drift operations in the source are
exact comparisons, `min`, `max` and `abs`); Postgres timestamps are modelled
as naturals ordered by `≤`; external collaborators (database I/O, the OpenAI
summarizer, the HTTP health probe) are modelled as explicit outcome
parameters, a raised exception being an `Except.error`.
-/

namespace DaveRunner

/-! ### Python string primitives used by the routes -/

/-- Whitespace characters removed by Python's `str.strip()` (ASCII range). -/
def isPySpace (c : Char) : Bool :=
  c = ' ' || c = '\t' || c = '\n' || c = '\x0d' || c = '\x0b' || c = '\x0c'

/-- Embeds Python `s.strip()` on a string modelled as a list of characters. -/
def pyStrip (s : List Char) : List Char :=
  ((s.dropWhile isPySpace).reverse.dropWhile isPySpace).reverse

/-- Embeds the Python slice `s[-n:]`: the last `n` characters of `s`
(all of `s` when `s` is shorter than `n`). -/
def pyLastN (n : Nat) (s : List Char) : List Char :=
  s.drop (s.length - n)

/-- Embeds Python `s or dflt` for a string field of a parsed JSON body:
a missing field (`none`) and the empty string are both falsy. -/
def orDefaultStr (v : Option String) (dflt : String) : String :=
  match v with
  | none => dflt
  | some s => if s = "" then dflt else s

/-- Embeds Python `s or dflt` for a text field modelled as a character list. -/
def orDefaultChars (v : Option (List Char)) (dflt : List Char) : List Char :=
  match v with
  | none => dflt
  | some s => if s = [] then dflt else s

/-- Embeds Python `s.lower()` (ASCII case folding, as used on `user_id`). -/
def pyLower (s : String) : String :=
  ⟨s.data.map Char.toLower⟩

/-- Embeds Python `s.strip()` on a `String` (used on `seal` / `session_id`). -/
def pyStripStr (s : String) : String :=
  ⟨pyStrip s.data⟩

/-! ### Drift Governor — the `reflect` route (server.py lines 116-129) -/

/-- Embeds server.py line 121:
`drift_clamped = max(min(drift, 0.05), -0.05)`. -/
def driftClamp (drift : ℚ) : ℚ :=
  max (min drift (5/100)) (-(5/100))

/-- Embeds server.py line 122:
`status = "OK" if abs(drift) < 0.08 else ("WARN" if abs(drift) < 0.12 else "PAUSE")`.
The bounds 0.08 and 0.12 are literals in the source; no caller override exists. -/
def classifyDrift (drift : ℚ) : String :=
  if |drift| < 8/100 then "OK" else if |drift| < 12/100 then "WARN" else "PAUSE"

/-- The full response payload of the `reflect` route: status, raw drift,
clamped drift (server.py lines 123-129). -/
def reflect (drift : ℚ) : String × ℚ × ℚ :=
  (classifyDrift drift, drift, driftClamp drift)

/-- C1 counterexample: at the stop boundary 0.12 the route's status string is
`"PAUSE"`, not `"STOP"` — the claim's label does not match the code. -/
theorem classifyDrift_at_stop_bound_is_PAUSE_not_STOP :
    classifyDrift (12/100) = "PAUSE" ∧ classifyDrift (12/100) ≠ "STOP" := by
  have h : classifyDrift (12/100) = "PAUSE" := by
    rw [classifyDrift, abs_of_nonneg (by norm_num)]
    norm_num
  exact ⟨h, by rw [h]; decide⟩

/-- C1 (amended): with the fixed bounds warn = 0.08 and stop = 0.12, the
status is `"PAUSE"` (not `"STOP"`) when `|drift_in| ≥ 0.12`, `"WARN"` when
`0.08 ≤ |drift_in| < 0.12`, and `"OK"` when `|drift_in| < 0.08`; boundary
values belong to the stricter bucket, so an input of magnitude exactly 0.12
yields `"PAUSE"`. -/
theorem classifyDrift_buckets :
    (∀ d : ℚ, classifyDrift d =
      if 12/100 ≤ |d| then "PAUSE" else if 8/100 ≤ |d| then "WARN" else "OK") ∧
    classifyDrift (12/100) = "PAUSE" ∧
    classifyDrift (-(12/100)) = "PAUSE" := by
  refine ⟨fun d => ?_,
    by rw [classifyDrift, abs_of_nonneg (by norm_num)]; norm_num,
    by rw [classifyDrift, abs_of_nonpos (by norm_num)]; norm_num⟩
  unfold classifyDrift
  rcases lt_or_le |d| (8/100) with h8 | h8
  · rw [if_pos h8, if_neg (by linarith), if_neg (by linarith)]
  · rw [if_neg (by linarith)]
    rcases lt_or_le |d| (12/100) with h12 | h12
    · rw [if_pos h12, if_neg (by linarith), if_pos h8]
    · rw [if_neg (by linarith), if_pos h12]

/-- C2: the returned `drift_clamped` is `max(min(drift_in, 0.05), -0.05)` and
lies in `[-0.05, 0.05]`; the status depends only on the raw magnitude
`|drift_in|` (it is invariant under replacing the input by its absolute
value), and is in general not the classification of the clamped value, which
exhibits that classification reads the raw input. -/
theorem driftClamp_bounds_and_raw_classification :
    (∀ d : ℚ, driftClamp d = max (min d (5/100)) (-(5/100)) ∧
      -(5/100) ≤ driftClamp d ∧ driftClamp d ≤ 5/100) ∧
    (∀ d : ℚ, classifyDrift d = classifyDrift |d|) ∧
    (∃ d : ℚ, classifyDrift d ≠ classifyDrift (driftClamp d)) := by
  refine ⟨fun d => ⟨rfl, le_max_right _ _, ?_⟩, fun d => ?_, ⟨2/10, ?_⟩⟩
  · calc max (min d (5/100)) (-(5/100)) ≤ max (5/100) (-(5/100)) :=
          max_le_max (min_le_right _ _) le_rfl
      _ = 5/100 := by norm_num
  · simp [classifyDrift, abs_abs]
  · have h1 : classifyDrift (2/10) = "PAUSE" := by
      rw [classifyDrift, abs_of_nonneg (by norm_num)]; norm_num
    have h2 : driftClamp (2/10) = 5/100 := by
      rw [driftClamp]; norm_num
    have h3 : classifyDrift (5/100) = "OK" := by
      rw [classifyDrift, abs_of_nonneg (by norm_num)]; norm_num
    rw [h1, h2, h3]
    decide

/-! ### Reflection Store append — the `memory_save` route (server.py lines 132-166) -/

/-- The JSON body fields read by `memory_save`; `none` models an absent key.
Text that undergoes slicing/merging (`content`, `chat_context`) is modelled
as a character list. -/
structure SaveInput where
  user_id : Option String
  thread_id : Option String
  content : Option (List Char)
  chat_context : Option (List Char)
  drift_score : Option ℚ
  «seal» : Option String
  session_id : Option String

/-- The row inserted into `reflections` by `memory_save`. -/
structure SavedRecord where
  user_id : String
  thread_id : String
  content : List Char
  drift_score : ℚ
  «seal» : String
  session_id : String
deriving DecidableEq

/-- The `"\n\n[Recent Context]\n"` separator inserted before the merged
chat context (server.py line 153). -/
def recentContextHeader : List Char :=
  ('\n' :: '\n' :: '[' :: "Recent Context".data) ++ [']', '\n']

/-- Embeds `memory_save` (server.py lines 142-166): field extraction with
Python falsy defaulting, `user_id` lowercasing, trimming, the merge of
`chat_context` (last 2000 characters) under a `[Recent Context]` header, the
`content required` check, and the insert. Returns the inserted row or the
validation failure. -/
def memorySave (d : SaveInput) : Except String SavedRecord :=
  let user := pyLower (orDefaultStr d.user_id "public")
  let thread := orDefaultStr d.thread_id "general"
  let content := pyStrip (d.content.getD [])
  let chat_context := pyStrip (d.chat_context.getD [])
  let drift := d.drift_score.getD 0
  let sealv := pyStripStr (orDefaultStr d.seal "lawful")
  let session_id := pyStripStr (orDefaultStr d.session_id "continuity")
  let merged :=
    if chat_context ≠ [] then
      content ++ recentContextHeader ++ pyLastN 2000 chat_context
    else content
  if merged = [] then Except.error "content required"
  else Except.ok ⟨user, thread, merged, drift, sealv, session_id⟩

/-- Returns `true` on a successful outcome. -/
def isOkE {ε α : Type} : Except ε α → Bool
  | Except.ok _ => true
  | Except.error _ => false

/-- C3 counterexample: a request whose `user_id` is the empty string and
whose content is nonempty does not fail — the store substitutes the default
`"public"` instead of raising a validation error. -/
theorem memorySave_empty_user_id_succeeds :
    memorySave ⟨some "", none, some ['x'], none, none, none, none⟩ =
      Except.ok ⟨"public", "general", ['x'], 0, "lawful", "continuity"⟩ := by
  rfl

/-- C3 (amended): `memory_save` fails with the validation error exactly when
the trimmed `content` and the trimmed `chat_context` are both empty; an
absent (or empty) `user_id` never fails and defaults to `"public"`; absent
optional fields default to `thread_id = "general"`,
`session_id = "continuity"`, `seal = "lawful"`, `drift_score = 0`; no
`slide_id` field exists in the record. -/
theorem memorySave_validation_and_defaults (c : List Char) (h : pyStrip c ≠ []) :
    memorySave ⟨none, none, some c, none, none, none, none⟩ =
      Except.ok ⟨"public", "general", pyStrip c, 0, "lawful", "continuity"⟩ ∧
    memorySave ⟨some "", none, some c, none, none, none, none⟩ =
      Except.ok ⟨"public", "general", pyStrip c, 0, "lawful", "continuity"⟩ ∧
    ∀ d : SaveInput, (memorySave d = Except.error "content required" ↔
      pyStrip (d.content.getD []) = [] ∧ pyStrip (d.chat_context.getD []) = []) := by
  refine ⟨?_, ?_, fun d => ?_⟩
  · unfold memorySave
    dsimp only
    simp only [Option.getD_some, Option.getD_none]
    rw [if_neg (not_not_intro (show pyStrip ([] : List Char) = [] by rfl)), if_neg h]
    rfl
  · unfold memorySave
    dsimp only
    simp only [Option.getD_some, Option.getD_none]
    rw [if_neg (not_not_intro (show pyStrip ([] : List Char) = [] by rfl)), if_neg h]
    rfl
  · unfold memorySave
    dsimp only
    by_cases hc : pyStrip (d.chat_context.getD []) = []
    · rw [if_neg (not_not_intro hc)]
      by_cases hm : pyStrip (d.content.getD []) = []
      · rw [if_pos hm]
        simp [hm, hc]
      · rw [if_neg hm]
        simp [hm]
    · rw [if_pos hc]
      have hne : pyStrip (d.content.getD []) ++ recentContextHeader ++
          pyLastN 2000 (pyStrip (d.chat_context.getD [])) ≠ [] := by
        intro he
        have h2 : recentContextHeader = [] :=
          (List.append_eq_nil.mp (List.append_eq_nil.mp he).1).2
        exact absurd h2 (by decide)
      rw [if_neg hne]
      simp [hc]

/-- C3 witness: the amended theorem applied at the one-character content
`['x']`. -/
theorem memorySave_validation_and_defaults_witness :
    memorySave ⟨none, none, some ['x'], none, none, none, none⟩ =
      Except.ok ⟨"public", "general", pyStrip ['x'], 0, "lawful", "continuity"⟩ :=
  (memorySave_validation_and_defaults ['x'] (by decide)).1

/-- C10: whenever the trimmed `chat_context` is nonempty, the persisted
content is the trimmed submitted content followed by the
`[Recent Context]` header and at most the last 2000 characters of the
trimmed `chat_context`; in particular the merged content is never empty, so
the request passes the `content required` check even when `content` itself
is empty. -/
theorem memorySave_chat_context_merge (d : SaveInput)
    (h : pyStrip (d.chat_context.getD []) ≠ []) :
    (∀ r : SavedRecord, memorySave d = Except.ok r →
      r.content = pyStrip (d.content.getD []) ++ recentContextHeader ++
        pyLastN 2000 (pyStrip (d.chat_context.getD [])) ∧
      (pyLastN 2000 (pyStrip (d.chat_context.getD []))).length ≤ 2000) ∧
    isOkE (memorySave d) = true := by
  have hne : pyStrip (d.content.getD []) ++ recentContextHeader ++
      pyLastN 2000 (pyStrip (d.chat_context.getD [])) ≠ [] := by
    intro he
    have h2 : recentContextHeader = [] :=
      (List.append_eq_nil.mp (List.append_eq_nil.mp he).1).2
    exact absurd h2 (by decide)
  have hrun : memorySave d = Except.ok
      ⟨pyLower (orDefaultStr d.user_id "public"), orDefaultStr d.thread_id "general",
        pyStrip (d.content.getD []) ++ recentContextHeader ++
          pyLastN 2000 (pyStrip (d.chat_context.getD [])),
        d.drift_score.getD 0, pyStripStr (orDefaultStr d.seal "lawful"),
        pyStripStr (orDefaultStr d.session_id "continuity")⟩ := by
    unfold memorySave
    dsimp only
    rw [if_pos h, if_neg hne]
  refine ⟨fun r hr => ?_, by rw [hrun]; rfl⟩
  rw [hrun] at hr
  cases hr
  refine ⟨rfl, ?_⟩
  simp only [pyLastN, List.length_drop]
  omega

/-- C10 witness: a request with empty submitted content and a five-character
chat context passes the content-required check and is persisted. -/
theorem memorySave_chat_context_merge_witness :
    isOkE (memorySave ⟨none, none, none, some "hello".data, none, none, none⟩) = true :=
  (memorySave_chat_context_merge ⟨none, none, none, some "hello".data, none, none, none⟩
    (by decide)).2

/-! ### Reflections and ordered queries (the `reflections` table and
`ORDER BY ts` clauses of server.py) -/

/-- A row of the `reflections` table (server.py lines 54-64); the timestamp
`ts` is modelled as a natural number ordered by `≤`. -/
structure Reflection where
  id : ℕ
  user_id : String
  thread_id : String
  content : List Char
  drift_score : ℚ
  «seal» : String
  session_id : String
  ts : ℕ
deriving DecidableEq

/-- Insertion step of a descending sort by a natural-number key, used to
model SQL `ORDER BY ... DESC`. -/
def insertDescBy {α : Type} (key : α → ℕ) (x : α) : List α → List α
  | [] => [x]
  | y :: ys => if key y ≤ key x then x :: y :: ys else y :: insertDescBy key x ys

/-- Descending sort by a natural-number key (`ORDER BY key DESC`). -/
def sortDescBy {α : Type} (key : α → ℕ) (l : List α) : List α :=
  l.foldr (insertDescBy key) []

/-- Insertion step of an ascending sort by a natural-number key. -/
def insertAscBy {α : Type} (key : α → ℕ) (x : α) : List α → List α
  | [] => [x]
  | y :: ys => if key x ≤ key y then x :: y :: ys else y :: insertAscBy key x ys

/-- Ascending sort by a natural-number key (`ORDER BY key ASC`). -/
def sortAscBy {α : Type} (key : α → ℕ) (l : List α) : List α :=
  l.foldr (insertAscBy key) []

theorem mem_insertDescBy {α : Type} (key : α → ℕ) (x z : α) (l : List α) :
    z ∈ insertDescBy key x l ↔ z = x ∨ z ∈ l := by
  induction l with
  | nil => simp [insertDescBy]
  | cons y ys ih =>
    simp only [insertDescBy]
    by_cases hc : key y ≤ key x
    · rw [if_pos hc]
      simp [List.mem_cons]
    · rw [if_neg hc]
      simp only [List.mem_cons, ih]
      tauto

theorem mem_sortDescBy {α : Type} (key : α → ℕ) (z : α) (l : List α) :
    z ∈ sortDescBy key l ↔ z ∈ l := by
  induction l with
  | nil => simp [sortDescBy]
  | cons y ys ih =>
    simp only [sortDescBy, List.foldr_cons] at ih ⊢
    rw [mem_insertDescBy, ih, List.mem_cons]

theorem pairwise_insertDescBy {α : Type} (key : α → ℕ) (x : α) (l : List α)
    (h : l.Pairwise (fun a b => key b ≤ key a)) :
    (insertDescBy key x l).Pairwise (fun a b => key b ≤ key a) := by
  induction l with
  | nil => simp [insertDescBy]
  | cons y ys ih =>
    rw [List.pairwise_cons] at h
    simp only [insertDescBy]
    by_cases hc : key y ≤ key x
    · rw [if_pos hc]
      refine List.Pairwise.cons ?_ (List.Pairwise.cons h.1 h.2)
      intro z hz
      rcases List.mem_cons.mp hz with h1 | h2
      · subst h1; exact hc
      · exact le_trans (h.1 z h2) hc
    · rw [if_neg hc]
      refine List.Pairwise.cons ?_ (ih h.2)
      intro z hz
      rcases (mem_insertDescBy key x z ys).mp hz with h1 | h2
      · subst h1; exact le_of_not_le hc
      · exact h.1 z h2

theorem pairwise_sortDescBy {α : Type} (key : α → ℕ) (l : List α) :
    (sortDescBy key l).Pairwise (fun a b => key b ≤ key a) := by
  induction l with
  | nil => simp [sortDescBy]
  | cons y ys ih =>
    simp only [sortDescBy, List.foldr_cons] at ih ⊢
    exact pairwise_insertDescBy key y _ ih

/-! ### Limit clamping — `memory_get`, `memory_context`, `memory_context_scan`
(server.py lines 217, 243, 338) -/

/-- Embeds Python `d.get("limit") or dflt`: an absent limit and a limit of 0
are both falsy and replaced by the route's default. -/
def orDefaultInt (v : Option ℤ) (dflt : ℤ) : ℤ :=
  match v with
  | none => dflt
  | some z => if z = 0 then dflt else z

/-- Embeds server.py line 217: `min(max(int(d.get("limit") or 10), 1), 200)`
of the `memory_get` route. -/
def memoryGetLimit (v : Option ℤ) : ℤ :=
  min (max (orDefaultInt v 10) 1) 200

/-- Embeds server.py lines 243 and 338:
`min(max(int(d.get("limit") or 20), 1), 200)` of the `memory_context` and
`memory_context_scan` routes. -/
def contextLimit (v : Option ℤ) : ℤ :=
  min (max (orDefaultInt v 20) 1) 200

/-- Embeds the `memory_get` query (server.py lines 215-226): filter by the
defaulted `user_id`/`thread_id`, order by `ts` descending, take the clamped
limit. -/
def memoryGet (db : List Reflection) (user_id thread_id : Option String)
    (v : Option ℤ) : List Reflection :=
  let user := pyLower (orDefaultStr user_id "public")
  let thread := orDefaultStr thread_id "general"
  (sortDescBy (fun r => r.ts)
    (db.filter (fun r => r.user_id == user && r.thread_id == thread))).take
    (memoryGetLimit v).toNat

/-- Embeds the reflection fetch of `memory_context` and `memory_context_scan`
(server.py lines 246-252 and 346-351): filter by the exact
`(user, thread, session)` triple, order by `ts` ascending, take the clamped
limit. -/
def contextFetch (db : List Reflection) (user thread session : String)
    (v : Option ℤ) : List Reflection :=
  (sortAscBy (fun r => r.ts)
    (db.filter (fun r =>
      r.user_id == user && r.thread_id == thread && r.session_id == session))).take
    (contextLimit v).toNat

/-- C8 counterexample: a caller-requested limit of 0 is falsy in Python, so
`int(d.get("limit") or 10)` substitutes the default 10 before clamping; the
effective limit is 10, not the clamped value `min(max(0,1),200) = 1` the
claim prescribes. -/
theorem memoryGetLimit_zero_uses_default_not_clamp :
    memoryGetLimit (some 0) = 10 ∧
    min (max (0 : ℤ) 1) 200 = 1 ∧
    memoryGetLimit (some 0) ≠ min (max (0 : ℤ) 1) 200 := by
  decide

/-- C8 (amended): the query routes never reject a limit; for every nonzero
requested limit the effective limit is `min(max(limit,1),200)`, while a
requested limit of 0 (like an absent one) is first replaced by the route's
default (10 for the recent-reflection fetch, 20 for the context fetch) and
then clamped; the effective limit always lies in 1..200 and the query
returns at most that many reflections. -/
theorem limit_clamping_spec :
    (∀ v : Option ℤ, 1 ≤ memoryGetLimit v ∧ memoryGetLimit v ≤ 200 ∧
      1 ≤ contextLimit v ∧ contextLimit v ≤ 200) ∧
    (∀ z : ℤ, memoryGetLimit (some z) =
      if z = 0 then 10 else min (max z 1) 200) ∧
    (∀ z : ℤ, contextLimit (some z) =
      if z = 0 then 20 else min (max z 1) 200) ∧
    (∀ db u t v, (memoryGet db u t v).length ≤ (memoryGetLimit v).toNat) ∧
    (∀ db u t s v, (contextFetch db u t s v).length ≤ (contextLimit v).toNat) := by
  refine ⟨fun v => ⟨?_, min_le_right _ _, ?_, min_le_right _ _⟩,
    fun z => ?_, fun z => ?_, fun db u t v => ?_, fun db u t s v => ?_⟩
  · exact le_min (le_max_right _ _) (by norm_num)
  · exact le_min (le_max_right _ _) (by norm_num)
  · by_cases hz : z = 0
    · simp [memoryGetLimit, orDefaultInt, hz]
    · simp [memoryGetLimit, orDefaultInt, hz]
  · by_cases hz : z = 0
    · simp [contextLimit, orDefaultInt, hz]
    · simp [contextLimit, orDefaultInt, hz]
  · exact List.length_take_le _ _
  · exact List.length_take_le _ _

/-! ### Session Aggregator — the scan query of `memory_scan` and
`memory_context_scan` (server.py lines 286-304 and 375-392) -/

/-- Minimum of a list of naturals (SQL `MIN`), meaningful on nonempty lists. -/
def listMin : List ℕ → ℕ
  | [] => 0
  | [t] => t
  | t :: ts => min t (listMin ts)

/-- Maximum of a list of naturals (SQL `MAX`). -/
def listMax (l : List ℕ) : ℕ :=
  l.foldr max 0

theorem listMin_le (l : List ℕ) : ∀ x ∈ l, listMin l ≤ x := by
  induction l with
  | nil => intro x hx; cases hx
  | cons t ts ih =>
    intro x hx
    cases ts with
    | nil =>
      rcases List.mem_cons.mp hx with h | h
      · subst h; exact le_rfl
      · cases h
    | cons a as =>
      rcases List.mem_cons.mp hx with h | h
      · subst h
        exact min_le_left _ _
      · exact le_trans (min_le_right t (listMin (a :: as))) (ih x h)

theorem listMin_mem (l : List ℕ) (h : l ≠ []) : listMin l ∈ l := by
  induction l with
  | nil => exact absurd rfl h
  | cons t ts ih =>
    cases ts with
    | nil => exact List.mem_cons_self t []
    | cons a as =>
      rcases min_choice t (listMin (a :: as)) with h1 | h1
      · rw [show listMin (t :: a :: as) = min t (listMin (a :: as)) from rfl, h1]
        exact List.mem_cons_self _ _
      · rw [show listMin (t :: a :: as) = min t (listMin (a :: as)) from rfl, h1]
        exact List.mem_cons_of_mem _ (ih (by simp))

theorem le_listMax (l : List ℕ) : ∀ x ∈ l, x ≤ listMax l := by
  induction l with
  | nil => intro x hx; cases hx
  | cons t ts ih =>
    intro x hx
    rcases List.mem_cons.mp hx with h | h
    · subst h; exact le_max_left _ _
    · exact le_trans (ih x h) (le_max_right t (listMax ts))

theorem listMax_mem (l : List ℕ) (h : l ≠ []) : listMax l ∈ l := by
  induction l with
  | nil => exact absurd rfl h
  | cons t ts ih =>
    cases ts with
    | nil =>
      rw [show listMax [t] = max t 0 from rfl, Nat.max_zero]
      exact List.mem_cons_self t []
    | cons a as =>
      rcases max_choice t (listMax (a :: as)) with h1 | h1
      · rw [show listMax (t :: a :: as) = max t (listMax (a :: as)) from rfl, h1]
        exact List.mem_cons_self _ _
      · rw [show listMax (t :: a :: as) = max t (listMax (a :: as)) from rfl, h1]
        exact List.mem_cons_of_mem _ (ih (by simp))

/-- Rounding half away from zero, as Postgres `ROUND(numeric, n)` does. -/
def roundHalfAwayFromZero (q : ℚ) : ℤ :=
  if 0 ≤ q then Int.floor (q + 1/2) else -Int.floor (-q + 1/2)

/-- Embeds `ROUND(x::numeric, 4)` (server.py lines 288 and 377). -/
def round4 (q : ℚ) : ℚ :=
  (roundHalfAwayFromZero (q * 10000) : ℚ) / 10000

/-- The distinct `(session_id, thread_id)` pairs among a user's reflections
(SQL `GROUP BY session_id, thread_id` under `WHERE user_id=%s`). -/
def groupKeys (db : List Reflection) (user : String) : List (String × String) :=
  ((db.filter (fun r => r.user_id == user)).map
    (fun r => (r.session_id, r.thread_id))).dedup

/-- The reflections of one `(session_id, thread_id)` group of a user. -/
def groupOf (db : List Reflection) (user : String) (k : String × String) :
    List Reflection :=
  db.filter (fun r =>
    r.user_id == user && r.session_id == k.1 && r.thread_id == k.2)

/-- One output row of the scan query: key, `COUNT(*)`,
`ROUND(AVG(drift_score)::numeric,4)`, `MIN(ts)`, `MAX(ts)`. -/
structure SessionRow where
  session_id : String
  thread_id : String
  total : ℕ
  avg_drift : ℚ
  first_ts : ℕ
  last_ts : ℕ
deriving DecidableEq

/-- The aggregate row of one group. -/
def rowOf (db : List Reflection) (user : String) (k : String × String) :
    SessionRow :=
  let g := groupOf db user k
  ⟨k.1, k.2, g.length,
    round4 ((g.map (fun r => r.drift_score)).sum / (g.length : ℚ)),
    listMin (g.map (fun r => r.ts)), listMax (g.map (fun r => r.ts))⟩

/-- Embeds the scan query of `memory_scan` / `memory_context_scan`
(server.py lines 287-294): group a user's reflections by
`(session_id, thread_id)`, aggregate each group, order by `MAX(ts) DESC`. -/
def scanSessions (db : List Reflection) (user : String) : List SessionRow :=
  sortDescBy (fun row => row.last_ts)
    ((groupKeys db user).map (rowOf db user))

/-- C7: the scan rows are ordered by latest activity descending; every row
aggregates exactly its `(session_id, thread_id)` group — its count is the
group size, its average drift is the group's mean drift rounded to four
decimal places, and its first/last timestamps are the group's earliest and
latest `ts` (both bounds are attained by group members); and every
reflection of the user is covered by some row. -/
theorem scanSessions_spec (db : List Reflection) (user : String) :
    List.Pairwise (fun a b => b.last_ts ≤ a.last_ts) (scanSessions db user) ∧
    (∀ row ∈ scanSessions db user,
      groupOf db user (row.session_id, row.thread_id) ≠ [] ∧
      row.total = (groupOf db user (row.session_id, row.thread_id)).length ∧
      row.avg_drift = round4
        (((groupOf db user (row.session_id, row.thread_id)).map
          (fun r => r.drift_score)).sum / (row.total : ℚ)) ∧
      (∀ r ∈ groupOf db user (row.session_id, row.thread_id),
        row.first_ts ≤ r.ts ∧ r.ts ≤ row.last_ts) ∧
      row.first_ts ∈ (groupOf db user (row.session_id, row.thread_id)).map
        (fun r => r.ts) ∧
      row.last_ts ∈ (groupOf db user (row.session_id, row.thread_id)).map
        (fun r => r.ts)) ∧
    (∀ r ∈ db, r.user_id = user → ∃ row ∈ scanSessions db user,
      row.session_id = r.session_id ∧ row.thread_id = r.thread_id) := by
  refine ⟨pairwise_sortDescBy _ _, fun row hrow => ?_, fun r hr hru => ?_⟩
  · obtain ⟨k, hk, hkrow⟩ :=
      List.mem_map.mp ((mem_sortDescBy _ _ _).mp hrow)
    subst hkrow
    have hgk : ((rowOf db user k).session_id, (rowOf db user k).thread_id) = k := by
      cases k
      rfl
    rw [hgk]
    have hne : groupOf db user k ≠ [] := by
      unfold groupKeys at hk
      obtain ⟨r, hrf, hrk⟩ := List.mem_map.mp (List.mem_dedup.mp hk)
      obtain ⟨hrdb, hrp⟩ := List.mem_filter.mp hrf
      have hmem : r ∈ groupOf db user k := by
        apply List.mem_filter.mpr
        refine ⟨hrdb, ?_⟩
        subst hrk
        simp [hrp]
      exact List.ne_nil_of_mem hmem
    have hmapne : (groupOf db user k).map (fun r => r.ts) ≠ [] := by
      intro hcon
      exact hne (List.map_eq_nil_iff.mp hcon)
    refine ⟨hne, rfl, rfl, fun r hrg => ⟨?_, ?_⟩, ?_, ?_⟩
    · exact listMin_le _ _ (List.mem_map_of_mem _ hrg)
    · exact le_listMax _ _ (List.mem_map_of_mem _ hrg)
    · exact listMin_mem _ hmapne
    · exact listMax_mem _ hmapne
  · refine ⟨rowOf db user (r.session_id, r.thread_id), ?_, rfl, rfl⟩
    apply (mem_sortDescBy _ _ _).mpr
    apply List.mem_map_of_mem
    unfold groupKeys
    apply List.mem_dedup.mpr
    apply List.mem_map.mpr
    refine ⟨r, List.mem_filter.mpr ⟨hr, ?_⟩, rfl⟩
    simp [hru]

/-- C7 witness: on a one-reflection store, the coverage part of the scan
theorem produces a row for the reflection's session and thread. -/
theorem scanSessions_spec_witness :
    ∃ row ∈ scanSessions
      [⟨1, "phil", "diary", [], 1/100, "lawful", "continuity", 5⟩] "phil",
      row.session_id = "continuity" ∧ row.thread_id = "diary" :=
  (scanSessions_spec
      [⟨1, "phil", "diary", [], 1/100, "lawful", "continuity", 5⟩] "phil").2.2
    ⟨1, "phil", "diary", [], 1/100, "lawful", "continuity", 5⟩
    (List.mem_cons_self _ _) rfl

/-! ### The `memory_scan` route (server.py lines 279-327) -/

/-- Embeds `(d.get("user_id") or "public").lower()`. -/
def normUser (u : Option String) : String :=
  pyLower (orDefaultStr u "public")

/-- Embeds `(d.get("thread_id") or "general")`. -/
def normThread (t : Option String) : String :=
  orDefaultStr t "general"

/-- Embeds `(d.get("session_id") or "continuity").strip()`. -/
def normSession (s : Option String) : String :=
  pyStripStr (orDefaultStr s "continuity")

/-- Embeds the `memory_scan` route (server.py lines 279-327).  Its whole
body runs inside a single try/except: the scan query, and — when a summary
is requested, the OpenAI client is configured and at least one session
exists — the summarizer call; an exception raised by either one falls
through to the same handler, which returns the blanket
`Database error` failure.  The summarizer outcome is the `summarizer`
parameter; a raised exception is `Except.error`. -/
def memoryScan (db : List Reflection) (user_id : Option String)
    (includeSummary openaiConfigured : Bool)
    (summarizer : Except String String) :
    Except String (List SessionRow × Option String) :=
  let sessions := scanSessions db (normUser user_id)
  if includeSummary && openaiConfigured && !sessions.isEmpty then
    match summarizer with
    | Except.ok s => Except.ok (sessions, some (pyStripStr s))
    | Except.error e => Except.error ("Database error: " ++ e)
  else Except.ok (sessions, none)

/-- C4: on a store holding one reflection for the user, a summarizer failure
turns the whole scan into the blanket `Database error` failure — the
per-session aggregation numbers are not returned, although the scan itself
found a session. -/
theorem memoryScan_summarizer_failure_fails_whole_scan :
    memoryScan [⟨1, "phil", "diary", [], 1/100, "lawful", "continuity", 5⟩]
        (some "phil") true true (Except.error "boom") =
      Except.error "Database error: boom" ∧
    (scanSessions [⟨1, "phil", "diary", [], 1/100, "lawful", "continuity", 5⟩]
        "phil").length = 1 := by
  constructor
  · rfl
  · rfl

/-! ### Context Reconstruction — the `memory_context` route
(server.py lines 234-276) -/

/-- The success payload of `memory_context` (server.py line 274). -/
structure ContextOk where
  session_id : String
  summary : String
  reflection_count : ℕ
deriving DecidableEq

/-- Embeds the `memory_context` route (server.py lines 234-276): a 503
failure when no OpenAI client is configured, a 404 failure when zero
reflections match the `(user, thread, session)` triple, a 502 failure when
the summarizer raises, and the summary payload otherwise.  Failures carry
the HTTP status code and message the route returns. -/
def memoryContext (db : List Reflection) (openaiConfigured : Bool)
    (user_id thread_id session_id : Option String) (v : Option ℤ)
    (summarizer : Except String String) : Except (ℕ × String) ContextOk :=
  if !openaiConfigured then Except.error (503, "OpenAI not configured")
  else
    let session := normSession session_id
    let refl := contextFetch db (normUser user_id) (normThread thread_id) session v
    if refl.isEmpty then
      Except.error (404, "No reflections found for this session")
    else
      match summarizer with
      | Except.error e => Except.error (502, "OpenAI synthesis error: " ++ e)
      | Except.ok s => Except.ok ⟨session, pyStripStr s, refl.length⟩

/-- C5: with the collaborator configured, `memory_context` fails with the
404 `NotFound` response exactly when zero reflections match the triple, and
with the 502 synthesis-unavailable response when reflections exist but the
summarizer raises; the two failures carry distinct status codes, so the
caller can tell them apart. -/
theorem memoryContext_notfound_vs_synthesis_unavailable :
    (∀ db u t sid v summ,
      contextFetch db (normUser u) (normThread t) (normSession sid) v = [] →
      memoryContext db true u t sid v summ =
        Except.error (404, "No reflections found for this session")) ∧
    (∀ db u t sid v e,
      contextFetch db (normUser u) (normThread t) (normSession sid) v ≠ [] →
      memoryContext db true u t sid v (Except.error e) =
        Except.error (502, "OpenAI synthesis error: " ++ e)) ∧
    (404 : ℕ) ≠ 502 := by
  refine ⟨fun db u t sid v summ h => ?_, fun db u t sid v e h => ?_, by decide⟩
  · unfold memoryContext
    dsimp only
    rw [if_neg (by simp), if_pos (by simp [List.isEmpty_iff, h])]
  · unfold memoryContext
    dsimp only
    rw [if_neg (by simp), if_neg (by simp [List.isEmpty_iff, h])]

/-- C5 witness: on an empty store the route returns the 404 failure, and on
a one-reflection store with a raising summarizer it returns the 502
failure. -/
theorem memoryContext_notfound_vs_synthesis_unavailable_witness :
    memoryContext [] true none none none none (Except.ok "x") =
      Except.error (404, "No reflections found for this session") ∧
    memoryContext [⟨1, "public", "general", [], 0, "lawful", "continuity", 5⟩]
        true none none none none (Except.error "boom") =
      Except.error (502, "OpenAI synthesis error: boom") :=
  ⟨memoryContext_notfound_vs_synthesis_unavailable.1 [] none none none none
      (Except.ok "x") rfl,
    memoryContext_notfound_vs_synthesis_unavailable.2.1
      [⟨1, "public", "general", [], 0, "lawful", "continuity", 5⟩]
      none none none none "boom" (by decide)⟩

/-! ### Combined Context + Scan — the `memory_context_scan` route
(server.py lines 330-416) -/

/-- One result slot of `memory_context_scan`: the initial empty dict `{}`,
a success payload, or the `{"error": e}` marker written by the branch's
exception handler. -/
inductive Slot (α : Type)
  | empty
  | ok (a : α)
  | err (e : String)
deriving DecidableEq

/-- Turns the outcome of one branch body (run under its own try/except)
into the value its slot holds: an uncaught exception becomes the error
marker, `none` leaves the slot at its initial `{}`. -/
def capture {α : Type} : Except String (Option α) → Slot α
  | Except.ok none => Slot.empty
  | Except.ok (some a) => Slot.ok a
  | Except.error e => Slot.err e

/-- The collaborator outcomes the context branch consumes: the configured
flag of the OpenAI client, the database fetch of the session's reflection
contents, and the summarizer call. -/
structure ContextBranchEnv where
  openaiConfigured : Bool
  fetch : Except String (List (List Char))
  summarize : Except String String

/-- The collaborator outcomes the scan branch consumes. -/
structure ScanBranchEnv where
  scanFetch : Except String (List SessionRow)
  includeSummary : Bool
  openaiConfigured : Bool
  summarize : Except String String

/-- The body of the context-synthesis branch of `memory_context_scan`
(server.py lines 343-372), as run inside its own try: skip when no OpenAI
client is configured, fetch the reflections (may raise), skip when none
match, summarize (may raise). -/
def contextScanBody (session : String) (env : ContextBranchEnv) :
    Except String (Option ContextOk) :=
  if env.openaiConfigured then
    match env.fetch with
    | Except.error e => Except.error e
    | Except.ok refl =>
      if !refl.isEmpty then
        match env.summarize with
        | Except.error e => Except.error e
        | Except.ok s => Except.ok (some ⟨session, s, refl.length⟩)
      else Except.ok none
  else Except.ok none

/-- The body of the scan branch of `memory_context_scan` (server.py lines
374-412), as run inside its own try: the aggregation query (may raise),
then the optional global summary (may raise). -/
def scanScanBody (env : ScanBranchEnv) :
    Except String (Option (List SessionRow × Option String)) :=
  match env.scanFetch with
  | Except.error e => Except.error e
  | Except.ok sessions =>
    if env.includeSummary && env.openaiConfigured && !sessions.isEmpty then
      match env.summarize with
      | Except.error e => Except.error e
      | Except.ok s => Except.ok (some (sessions, some (pyStripStr s)))
    else Except.ok (some (sessions, none))

/-- Embeds `memory_context_scan` (server.py lines 330-416): each branch runs
under its own try/except that writes only that branch's slot, and the route
always returns the pair of slots. -/
def memoryContextScan (session : String) (cenv : ContextBranchEnv)
    (senv : ScanBranchEnv) :
    Slot ContextOk × Slot (List SessionRow × Option String) :=
  (capture (contextScanBody session cenv), capture (scanScanBody senv))

/-- C6: the combined operation always returns both slots; each slot is a
function of its own branch's collaborators only (so a failure of one branch
cannot change the other branch's result), and a branch whose database call
raises gets the error marker in its own slot while the other slot still
holds its branch's own outcome. -/
theorem memoryContextScan_partial_failure_isolation :
    (∀ sid cenv senv senv2, (memoryContextScan sid cenv senv).1 =
      (memoryContextScan sid cenv senv2).1) ∧
    (∀ sid cenv cenv2 senv, (memoryContextScan sid cenv senv).2 =
      (memoryContextScan sid cenv2 senv).2) ∧
    (∀ sid cenv senv e, cenv.fetch = Except.error e →
      cenv.openaiConfigured = true →
      (memoryContextScan sid cenv senv).1 = Slot.err e ∧
      (memoryContextScan sid cenv senv).2 = capture (scanScanBody senv)) ∧
    (∀ sid cenv senv e, senv.scanFetch = Except.error e →
      (memoryContextScan sid cenv senv).2 = Slot.err e ∧
      (memoryContextScan sid cenv senv).1 = capture (contextScanBody sid cenv)) := by
  refine ⟨fun sid cenv senv senv2 => rfl, fun sid cenv cenv2 senv => rfl,
    fun sid cenv senv e hf hcfg => ⟨?_, rfl⟩, fun sid cenv senv e hf => ⟨?_, rfl⟩⟩
  · simp [memoryContextScan, contextScanBody, hf, hcfg, capture]
  · simp [memoryContextScan, scanScanBody, hf, capture]

/-- C6 witness: a context branch whose database fetch raises is marked in
the context slot while the scan slot still carries the scan branch's
result. -/
theorem memoryContextScan_partial_failure_isolation_witness :
    (memoryContextScan "continuity" ⟨true, Except.error "db down", Except.ok "s"⟩
      ⟨Except.ok [], true, true, Except.ok "g"⟩).1 = Slot.err "db down" ∧
    (memoryContextScan "continuity" ⟨true, Except.error "db down", Except.ok "s"⟩
      ⟨Except.ok [], true, true, Except.ok "g"⟩).2 =
      capture (scanScanBody ⟨Except.ok [], true, true, Except.ok "g"⟩) :=
  memoryContextScan_partial_failure_isolation.2.2.1 "continuity"
    ⟨true, Except.error "db down", Except.ok "s"⟩
    ⟨Except.ok [], true, true, Except.ok "g"⟩ "db down" rfl rfl

/-! ### Continuity Harness — `phil_continuity_harness.py` -/

/-- The health probe's parsed reply (lines 45-49 of the harness): the
service's `ok` flag and the store's `db_connected` flag; an unreachable
service is reported by `call` as `ok = false`. -/
structure HealthResp where
  ok : Bool
  db_connected : Bool
deriving DecidableEq

/-- Embeds `check_health` (harness lines 45-49):
`data.get("ok") and data.get("data", {}).get("db_connected")`. -/
def checkHealth (h : HealthResp) : Bool :=
  h.ok && h.db_connected

/-- The data `scan_memory` (harness lines 52-67) returns on success. -/
structure ScanData where
  sessions : ℕ
  avg_drift : ℚ
  lawful : Bool
  summary : String
deriving DecidableEq

/-- The data `continuity_validation` (harness lines 70-95) returns on
success. -/
structure ContData where
  context_summary : String
  global_summary : String
  reflection_count : ℕ
  session_count : ℕ
deriving DecidableEq

/-- The outcomes one validation cycle observes from the service: the health
reply, and the results of the scan and continuity-validation steps (`none`
models the step returning `None` after a failed call). -/
structure HarnessEnv where
  health : HealthResp
  scanData : Option ScanData
  contData : Option ContData
deriving DecidableEq

/-- Embeds `run_once` (harness lines 125-135): abort with no archive when
the health check fails; abort when the scan or the continuity validation
returns no data; otherwise archive one reflection composed from both
results.  Returns the archived data, `none` when the cycle aborts. -/
def runOnce (env : HarnessEnv) : Option (ScanData × ContData) :=
  if !checkHealth env.health then none
  else
    match env.scanData, env.contData with
    | some s, some c => some (s, c)
    | _, _ => none

/-- Embeds the scheduler loop `main` (harness lines 138-145): one
`run_once` per interval, cycles independent; the list of archives a
sequence of cycles produces. -/
def runCycles : List HarnessEnv → List (ScanData × ContData)
  | [] => []
  | e :: rest =>
    match runOnce e with
    | none => runCycles rest
    | some a => a :: runCycles rest

/-- C9: a cycle whose health probe reports the service unhealthy or the
store unreachable archives nothing, and in the scheduler loop such a cycle
contributes nothing — the remaining cycles proceed exactly as if it had
not happened. -/
theorem runOnce_health_failure_archives_nothing :
    (∀ env : HarnessEnv,
      env.health.ok = false ∨ env.health.db_connected = false →
      runOnce env = none) ∧
    (∀ (env : HarnessEnv) (rest : List HarnessEnv),
      env.health.ok = false ∨ env.health.db_connected = false →
      runCycles (env :: rest) = runCycles rest) := by
  have h1 : ∀ env : HarnessEnv,
      env.health.ok = false ∨ env.health.db_connected = false →
      runOnce env = none := by
    intro env h
    rcases h with h | h
    · simp [runOnce, checkHealth, h]
    · simp [runOnce, checkHealth, h]
  refine ⟨h1, fun env rest h => ?_⟩
  simp [runCycles, h1 env h]

/-- C9 witness: a cycle whose health reply has `ok = false` archives
nothing even though scan and continuity data would be available, and a
one-cycle schedule produces no archive. -/
theorem runOnce_health_failure_archives_nothing_witness :
    runOnce ⟨⟨false, true⟩, some ⟨1, 0, true, "s"⟩, some ⟨"c", "g", 1, 1⟩⟩ =
      none ∧
    runCycles [⟨⟨false, true⟩, some ⟨1, 0, true, "s"⟩, some ⟨"c", "g", 1, 1⟩⟩] =
      runCycles [] :=
  ⟨runOnce_health_failure_archives_nothing.1
      ⟨⟨false, true⟩, some ⟨1, 0, true, "s"⟩, some ⟨"c", "g", 1, 1⟩⟩ (Or.inl rfl),
    runOnce_health_failure_archives_nothing.2
      ⟨⟨false, true⟩, some ⟨1, 0, true, "s"⟩, some ⟨"c", "g", 1, 1⟩⟩ [] (Or.inl rfl)⟩

end DaveRunner
